import Mathlib

/-!
Verification of the capture pipeline in pySpinCapture (cameraCapture1camA.py).

The script runs, per trial, a capture thread (camCapture), a save thread
(saveImage) and a main relay loop, communicating over two FIFO queues
(cam1Queue and imageWriteQueue1) and a shared flag tEnd.  We embed the
per-trial pipeline as a small-step state machine: each thread contributes
one atomic step function translated from its source lines, and a run is a
fold of those steps over an explicit interleaving schedule.  The camera
driver is abstracted as a function from retrieval-attempt number to an
outcome (frame delivered, timeout, or other fault), matching the
GetNextImage calls.  Frames are identified by their capture index, which
is all the claims need.

Setup code (directory creation, chdir, camera init; lines 66-85 and 166)
and shutdown code (lines 248-263) are embedded separately as effect-trace
functions, and the per-trial movie naming (line 198) as a string function.
-/

/-- Outcome of one GetNextImage retrieval attempt by the driver:
a frame is delivered, the call times out, or some other error is raised
(for example a device disconnect). -/
inductive Outcome
  | success
  | timeout
  | fault
deriving DecidableEq

/-- Status of the camCapture thread: still looping, exited its loop
normally (break), or killed by an uncaught exception. -/
inductive CapStatus
  | running
  | done
  | crashed
deriving DecidableEq

/-- Control point of the main acquisition loop (lines 211-244):
at the top of a loop iteration, blocked in imageWriteQueue1.join after
observing tEnd, finished via the tEnd break (trial outcome TimedOut), or
finished by exhausting the range of FRAMES_TO_RECORD iterations (trial
outcome Completed). -/
inductive MainPC
  | loopTop
  | joining
  | doneTimedOut
  | doneCompleted
deriving DecidableEq

/-- The two timeout regimes of GetNextImage in camCapture. -/
inductive Policy
  | infinite
  | bounded
deriving DecidableEq

/-- Thread identifiers for the interleaving schedule. -/
inductive Tid
  | cap
  | main
  | save
deriving DecidableEq

/-- Per-trial configuration: the driver oracle (outcome of the n-th
retrieval attempt) and FRAMES_TO_RECORD. -/
structure Config where
  deliver : Nat → Outcome
  framesToRecord : Nat

/-- Timeout policy used by camCapture at frame counter k (lines 149-153):
the call with no argument (infinite wait) exactly when k = 0, the call
with CAM_TIMEOUT otherwise. -/
def polAt (k : Nat) : Policy :=
  if k = 0 then Policy.infinite else Policy.bounded

/-- State of one trial of the pipeline.  Frames are identified by their
capture index.  written is the sequence of frames passed to
writer.writeFrame, enq is the (ghost) sequence of every item ever put on
imageWriteQueue1, policies is the (ghost) sequence of timeout policies of
the completed retrieval attempts, tStart records whether line 225 ran. -/
structure TrialState where
  k : Nat
  capStatus : CapStatus
  camQueue : List Nat
  tEnd : Bool
  i : Nat
  mainPC : MainPC
  imageWriteQueue : List (Option Nat)
  written : List Nat
  enq : List (Option Nat)
  saveStopped : Bool
  writerClosed : Bool
  acqEnded : Bool
  tStart : Option Nat
  policies : List Policy
deriving DecidableEq

/-- One atomic step of camCapture (lines 146-162).  At k = 0 the call
GetNextImage() waits with the infinite policy: a timeout outcome never
returns, so the thread is simply blocked (no state change); a non-timeout
exception there is uncaught and kills the thread.  At k > 0 the call
GetNextImage(CAM_TIMEOUT) is wrapped in a bare except that treats every
exception - timeout or not - by setting tEnd = 1 and breaking.  On
success the frame is converted, put on camQueue, released, and k is
incremented. -/
def camCaptureStep (cfg : Config) (s : TrialState) : TrialState :=
  match s.capStatus with
  | CapStatus.done => s
  | CapStatus.crashed => s
  | CapStatus.running =>
    match cfg.deliver s.k with
    | Outcome.success =>
        { s with camQueue := s.camQueue ++ [s.k],
                 k := s.k + 1,
                 policies := s.policies ++ [polAt s.k] }
    | Outcome.timeout =>
        match s.k with
        | 0 => s
        | Nat.succ _ =>
            { s with tEnd := true,
                     capStatus := CapStatus.done,
                     policies := s.policies ++ [polAt s.k] }
    | Outcome.fault =>
        match s.k with
        | 0 =>
            { s with capStatus := CapStatus.crashed,
                     policies := s.policies ++ [polAt s.k] }
        | Nat.succ _ =>
            { s with tEnd := true,
                     capStatus := CapStatus.done,
                     policies := s.policies ++ [polAt s.k] }

/-- One atomic step of the main acquisition loop body (lines 213-244).
At the top of an iteration the thread sleeps while cam1Queue is empty and
tEnd is unset (no enabled step); once the queue is nonempty or tEnd is
set, line 218 checks tEnd first: if set, the loop calls EndAcquisition,
blocks in imageWriteQueue1.join() and then closes the writer - the frames
still sitting in camQueue are never dequeued.  Otherwise one frame is
dequeued from cam1Queue and put on imageWriteQueue1 (tStart is assigned on
the first iteration, line 224-225), and after FRAMES_TO_RECORD iterations
the for loop simply ends (no join, no close). -/
def mainLoopStep (cfg : Config) (s : TrialState) : TrialState :=
  match s.mainPC with
  | MainPC.doneTimedOut => s
  | MainPC.doneCompleted => s
  | MainPC.joining =>
    match s.imageWriteQueue with
    | [] => { s with writerClosed := true, mainPC := MainPC.doneTimedOut }
    | _ :: _ => s
  | MainPC.loopTop =>
    if s.tEnd then
      { s with acqEnded := true, mainPC := MainPC.joining }
    else
      match s.camQueue with
      | [] => s
      | f :: rest =>
        if s.i + 1 = cfg.framesToRecord then
          { s with camQueue := rest,
                   imageWriteQueue := s.imageWriteQueue ++ [some f],
                   enq := s.enq ++ [some f],
                   tStart := if s.i = 0 then some 0 else s.tStart,
                   mainPC := MainPC.doneCompleted }
        else
          { s with camQueue := rest,
                   imageWriteQueue := s.imageWriteQueue ++ [some f],
                   enq := s.enq ++ [some f],
                   tStart := if s.i = 0 then some 0 else s.tStart,
                   i := s.i + 1 }

/-- One atomic step of saveImage (lines 137-144): blocking get from
imageWriteQueue1; if the dequeued item is the None sentinel the loop
breaks, otherwise writer.writeFrame is called and then task_done.  The
get, write and task_done are one atomic step here, which is sound for the
join barrier because join cannot return while a dequeued item has not yet
been marked task_done. -/
def saveImageStep (s : TrialState) : TrialState :=
  if s.saveStopped then s
  else
    match s.imageWriteQueue with
    | [] => s
    | none :: rest => { s with imageWriteQueue := rest, saveStopped := true }
    | some f :: rest => { s with imageWriteQueue := rest, written := s.written ++ [f] }

/-- Dispatch one scheduled atomic step to its thread. -/
def trialStep (cfg : Config) (s : TrialState) (t : Tid) : TrialState :=
  match t with
  | Tid.cap => camCaptureStep cfg s
  | Tid.main => mainLoopStep cfg s
  | Tid.save => saveImageStep s

/-- Initial state of a trial (lines 196-209): i = 0, camCapture started
with k = i = 0, fresh empty queues, tEnd = 0.  When FRAMES_TO_RECORD = 0
the main for loop body never runs. -/
def initState (cfg : Config) : TrialState :=
  { k := 0,
    capStatus := CapStatus.running,
    camQueue := [],
    tEnd := false,
    i := 0,
    mainPC := if cfg.framesToRecord = 0 then MainPC.doneCompleted else MainPC.loopTop,
    imageWriteQueue := [],
    written := [],
    enq := [],
    saveStopped := false,
    writerClosed := false,
    acqEnded := false,
    tStart := none,
    policies := [] }

/-- Run one trial under a given interleaving schedule. -/
def trialRun (cfg : Config) (sched : List Tid) : TrialState :=
  sched.foldl (trialStep cfg) (initState cfg)

/-- Driver oracle that delivers two frames and then times out. -/
def cfgTwoFrames : Config :=
  { deliver := fun n => if n < 2 then Outcome.success else Outcome.timeout,
    framesToRecord := 5 }

/-- Driver oracle that always delivers a frame. -/
def cfgAllSuccess : Config :=
  { deliver := fun _ => Outcome.success, framesToRecord := 5 }

/-- Target frame count one, driver delivers two frames then times out. -/
def cfgOneFrameTarget : Config :=
  { deliver := fun n => if n < 2 then Outcome.success else Outcome.timeout,
    framesToRecord := 1 }

/-- Driver oracle: first frame delivered, then a non-timeout fault. -/
def cfgFaultAfterOne : Config :=
  { deliver := fun n => if n = 0 then Outcome.success else Outcome.fault,
    framesToRecord := 5 }

/-- Driver oracle: first frame delivered, then a timeout. -/
def cfgTimeoutAfterOne : Config :=
  { deliver := fun n => if n = 0 then Outcome.success else Outcome.timeout,
    framesToRecord := 5 }

/-- Driver oracle: the very first retrieval raises a non-timeout fault. -/
def cfgFaultFirst : Config :=
  { deliver := fun _ => Outcome.fault, framesToRecord := 5 }

/-- Interleaving: the capture thread retrieves two frames and then times
out before the main loop ever runs; the main loop then observes tEnd and
finalizes without draining cam1Queue. -/
def schedDropAll : List Tid := [Tid.cap, Tid.cap, Tid.cap, Tid.main, Tid.main]

/-- Interleaving: one frame is relayed and written, a second is captured
but still in cam1Queue when the timeout flag is observed, then join and
close. -/
def schedBarrier : List Tid :=
  [Tid.cap, Tid.main, Tid.save, Tid.cap, Tid.cap, Tid.main, Tid.main]

/-- Interleaving: the main loop completes its single configured frame,
after which the capture thread retrieves a further frame. -/
def schedOverrun : List Tid := [Tid.cap, Tid.main, Tid.cap, Tid.save]

/-- A state with one frame already captured (k = 1) and the capture
thread still running. -/
def stateK1 : TrialState := trialRun cfgFaultAfterOne [Tid.cap]

/-- Per-trial output video name (line 198):
mouseStr + '_' + dateStr + '_bottom_' + str(j) + '.mp4'. -/
def movieName1 (mouseStr dateStr : String) (j : Nat) : String :=
  mouseStr ++ "_" ++ dateStr ++ "_bottom_" ++ toString j ++ ".mp4"

/-- The trial filename as a function of everything the session derives
from the start time: dateStr and timeStr are both computed from now
(lines 74-75), but line 198 uses only mouseStr, dateStr and the trial
index, so the timeStr argument is unused. -/
def sessionMovieName (mouseStr dateStr timeStr : String) (j : Nat) : String :=
  movieName1 mouseStr dateStr j

/-- Actions of the shutdown path, lines 252-263.  The closeWriter action
names the writer1.close() call of line 221; it never occurs in the
shutdown path. -/
inductive SysAction
  | endAcquisition
  | windowDestroy
  | deInit
  | camListClear
  | releaseInstance
  | closeWriter
deriving DecidableEq

/-- Shutdown sequence after the try block (lines 252-263): EndAcquisition
runs first, then line 254 formats an elapsed-time message from tStart.
If tStart was never assigned (no frame was ever relayed, so line 225
never ran), that line raises NameError and everything after it -
window.destroy, cam1.DeInit, cam_list.Clear, system.ReleaseInstance - is
skipped. -/
def shutdownTrace (tStart : Option Nat) : List SysAction × Option String :=
  match tStart with
  | none => ([SysAction.endAcquisition], some "NameError: name tStart is not defined")
  | some _ => ([SysAction.endAcquisition, SysAction.windowDestroy, SysAction.deInit,
                SysAction.camListClear, SysAction.releaseInstance], none)

/-- A directory path as a list of components. -/
abbrev DirPath := List String

/-- SAVE_FOLDER_ROOT constant, line 50. -/
def SAVE_FOLDER_ROOT : DirPath := ["D:", "video", "bottom"]

/-- os.mkdir: single-level directory creation.  It fails with
FileExistsError when the directory exists and with FileNotFoundError when
the parent directory does not exist; it never creates parents. -/
def mkdirS (fs : List DirPath) (p : DirPath) : Except String (List DirPath) :=
  if p ∈ fs then Except.error "FileExistsError"
  else if p.dropLast ∈ fs then Except.ok (p :: fs)
  else Except.error "FileNotFoundError"

/-- os.chdir: fails when the target directory does not exist. -/
def chdirS (fs : List DirPath) (p : DirPath) : Except String Unit :=
  if p ∈ fs then Except.ok () else Except.error "FileNotFoundError"

/-- Effects of the setup code, for the trace of a run. -/
inductive ProgAction
  | mkdirA (p : DirPath)
  | chdirA (p : DirPath)
  | initCamera
deriving DecidableEq, BEq

/-- The pattern `if not os.path.exists(saveFolder): os.mkdir(saveFolder)`
of lines 71-72 and 78-79, returning the performed actions and the
resulting filesystem or error. -/
def ensureDir (fs : List DirPath) (p : DirPath) :
    List ProgAction × Except String (List DirPath) :=
  if p ∈ fs then ([], Except.ok fs)
  else
    match mkdirS fs p with
    | Except.ok fs1 => ([ProgAction.mkdirA p], Except.ok fs1)
    | Except.error e => ([], Except.error e)

/-- Program start-up, lines 66-85 followed by camera initialization at
line 166: create SAVE_FOLDER_ROOT/mouseStr if missing, then
SAVE_FOLDER_ROOT/mouseStr/dateStr if missing, chdir into it, and only
then initialize the camera.  Any error escapes (there is no handler), so
a failing mkdir ends the program before any camera or file action. -/
def setupAndInit (fs0 : List DirPath) (mouseStr dateStr : String) :
    List ProgAction × Except String (List DirPath) :=
  match ensureDir fs0 (SAVE_FOLDER_ROOT ++ [mouseStr]) with
  | (a1, Except.error e) => (a1, Except.error e)
  | (a1, Except.ok fs1) =>
    match ensureDir fs1 (SAVE_FOLDER_ROOT ++ [mouseStr] ++ [dateStr]) with
    | (a2, Except.error e) => (a1 ++ a2, Except.error e)
    | (a2, Except.ok fs2) =>
      match chdirS fs2 (SAVE_FOLDER_ROOT ++ [mouseStr] ++ [dateStr]) with
      | Except.error e => (a1 ++ a2, Except.error e)
      | Except.ok _ =>
        (a1 ++ a2 ++ [ProgAction.chdirA (SAVE_FOLDER_ROOT ++ [mouseStr] ++ [dateStr]),
                      ProgAction.initCamera], Except.ok fs2)

/-- A filesystem is closed under parents when every nonempty directory
path in it also has its parent in it. -/
def parentsPresent (fs : List DirPath) : Prop :=
  ∀ p ∈ fs, p ≠ [] → p.dropLast ∈ fs

/-- Reachability invariant of the trial pipeline.  Frames flow as the
contiguous block of capture indices: written ones first, then the block
pending in imageWriteQueue1, then the block pending in cam1Queue, and the
ghost sequence enq of all items ever put on imageWriteQueue1 never holds
the None sentinel.  The writer is closed only via the join path with the
write queue drained. -/
structure PipeInv (cfg : Config) (s : TrialState) : Prop where
  hwr : s.written = List.range s.written.length
  hiwq : s.imageWriteQueue
      = (List.range' s.written.length (s.enq.length - s.written.length)).map some
  hwle : s.written.length ≤ s.enq.length
  henq : s.enq = (List.range s.enq.length).map some
  hcam : s.camQueue = List.range' s.enq.length (s.k - s.enq.length)
  hrle : s.enq.length ≤ s.k
  hstop : s.saveStopped = false
  hclosed : s.mainPC = MainPC.doneTimedOut ↔ s.writerClosed = true
  hclq : s.writerClosed = true → s.imageWriteQueue = []
  hloop : s.mainPC = MainPC.loopTop → s.enq.length = s.i ∧ s.i + 1 ≤ cfg.framesToRecord
  hcomp : s.mainPC = MainPC.doneCompleted → s.enq.length = cfg.framesToRecord
  hkpol : s.capStatus = CapStatus.running → s.policies.length = s.k
  hpol : s.policies = (List.range s.policies.length).map polAt
  htst : s.tStart = none ↔ s.enq = []

lemma policies_append_polAt (cfg : Config) (s : TrialState)
    (hcs : s.capStatus = CapStatus.running) (h : PipeInv cfg s) :
    s.policies ++ [polAt s.k]
      = (List.range (s.policies ++ [polAt s.k]).length).map polAt := by
  have hl : s.policies.length = s.k := h.hkpol hcs
  have hlen : (s.policies ++ [polAt s.k]).length = s.k + 1 := by simp [hl]
  have hp2 : s.policies = (List.range s.k).map polAt := by rw [← hl]; exact h.hpol
  rw [hlen, List.range_succ, List.map_append, ← hp2]
  simp

lemma inv_camCaptureStep (cfg : Config) (s : TrialState) (h : PipeInv cfg s) :
    PipeInv cfg (camCaptureStep cfg s) := by
  unfold camCaptureStep
  split
  · exact h
  · exact h
  · rename_i hcs
    split
    · -- success: frame s.k is put on camQueue and k is incremented
      refine ⟨h.hwr, h.hiwq, h.hwle, h.henq, ?_, ?_, h.hstop, h.hclosed, h.hclq,
              h.hloop, h.hcomp, ?_, ?_, h.htst⟩
      · show s.camQueue ++ [s.k] = List.range' s.enq.length (s.k + 1 - s.enq.length)
        have hk : s.enq.length + (s.k - s.enq.length) = s.k := Nat.add_sub_cancel' h.hrle
        rw [h.hcam]
        calc List.range' s.enq.length (s.k - s.enq.length) ++ [s.k]
            = List.range' s.enq.length (s.k - s.enq.length)
                ++ [s.enq.length + (s.k - s.enq.length)] := by rw [hk]
          _ = List.range' s.enq.length ((s.k - s.enq.length) + 1) :=
              (List.range'_1_concat _ _).symm
          _ = List.range' s.enq.length (s.k + 1 - s.enq.length) := by
              congr 1; omega
      · exact Nat.le_succ_of_le h.hrle
      · intro _
        show (s.policies ++ [polAt s.k]).length = s.k + 1
        simp [h.hkpol hcs]
      · exact policies_append_polAt cfg s hcs h
    · -- timeout
      split
      · exact h
      · -- timeout at k > 0: bare except sets tEnd and breaks
        refine ⟨h.hwr, h.hiwq, h.hwle, h.henq, h.hcam, h.hrle, h.hstop, h.hclosed,
                h.hclq, h.hloop, h.hcomp, ?_, ?_, h.htst⟩
        · intro hx; exact CapStatus.noConfusion hx
        · exact policies_append_polAt cfg s hcs h
    · -- fault
      split
      · -- fault at k = 0: uncaught exception kills the thread
        refine ⟨h.hwr, h.hiwq, h.hwle, h.henq, h.hcam, h.hrle, h.hstop, h.hclosed,
                h.hclq, h.hloop, h.hcomp, ?_, ?_, h.htst⟩
        · intro hx; exact CapStatus.noConfusion hx
        · exact policies_append_polAt cfg s hcs h
      · -- fault at k > 0: caught by the same bare except as a timeout
        refine ⟨h.hwr, h.hiwq, h.hwle, h.henq, h.hcam, h.hrle, h.hstop, h.hclosed,
                h.hclq, h.hloop, h.hcomp, ?_, ?_, h.htst⟩
        · intro hx; exact CapStatus.noConfusion hx
        · exact policies_append_polAt cfg s hcs h

lemma inv_mainLoopStep (cfg : Config) (s : TrialState) (h : PipeInv cfg s) :
    PipeInv cfg (mainLoopStep cfg s) := by
  unfold mainLoopStep
  split
  · exact h
  · exact h
  · -- joining
    rename_i hpc
    split
    · -- write queue drained: close the writer
      rename_i hq
      refine ⟨h.hwr, ?_, h.hwle, h.henq, h.hcam, h.hrle, h.hstop, ?_, ?_, ?_, ?_,
              h.hkpol, h.hpol, h.htst⟩
      · exact h.hiwq
      · simp
      · intro _; exact hq
      · intro hx; exact MainPC.noConfusion hx
      · intro hx; exact MainPC.noConfusion hx
    · exact h
  · -- loopTop
    rename_i hpc
    split
    · -- tEnd observed: go wait in join, dropping whatever is in camQueue
      refine ⟨h.hwr, h.hiwq, h.hwle, h.henq, h.hcam, h.hrle, h.hstop, ?_, h.hclq,
              ?_, ?_, h.hkpol, h.hpol, h.htst⟩
      · constructor
        · intro hx; exact MainPC.noConfusion hx
        · intro hc
          have hx := h.hclosed.mpr hc
          rw [hpc] at hx
          exact MainPC.noConfusion hx
      · intro hx; exact MainPC.noConfusion hx
      · intro hx; exact MainPC.noConfusion hx
    · -- tEnd unset
      split
      · exact h
      · -- relay one frame from cam1Queue to imageWriteQueue1
        rename_i f rest hq
        obtain ⟨hri, hib⟩ := h.hloop hpc
        have hcr : List.range' s.enq.length (s.k - s.enq.length) = f :: rest := by
          rw [← h.hcam]; exact hq
        obtain ⟨hf, hpos, hrest⟩ := List.range'_eq_cons_iff.mp hcr
        subst hf
        have hlen : (s.enq ++ [some s.enq.length]).length = s.enq.length + 1 := by simp
        have hiwq2 : s.imageWriteQueue ++ [some s.enq.length]
            = (List.range' s.written.length
                ((s.enq ++ [some s.enq.length]).length - s.written.length)).map some := by
          have hk : s.written.length + (s.enq.length - s.written.length) = s.enq.length :=
            Nat.add_sub_cancel' h.hwle
          have hcat : List.range' s.written.length (s.enq.length - s.written.length)
              ++ [s.enq.length]
              = List.range' s.written.length
                  ((s.enq ++ [some s.enq.length]).length - s.written.length) := by
            rw [hlen]
            calc List.range' s.written.length (s.enq.length - s.written.length)
                ++ [s.enq.length]
                = List.range' s.written.length (s.enq.length - s.written.length)
                  ++ [s.written.length + (s.enq.length - s.written.length)] := by rw [hk]
              _ = List.range' s.written.length ((s.enq.length - s.written.length) + 1) :=
                  (List.range'_1_concat _ _).symm
              _ = List.range' s.written.length (s.enq.length + 1 - s.written.length) := by
                  congr 1; omega
          rw [h.hiwq, ← hcat, List.map_append]
          simp
        have henq2 : s.enq ++ [some s.enq.length]
            = (List.range (s.enq ++ [some s.enq.length]).length).map some := by
          rw [hlen, List.range_succ, List.map_append, ← h.henq]
          simp
        have hcam2 : rest
            = List.range' (s.enq ++ [some s.enq.length]).length
                (s.k - (s.enq ++ [some s.enq.length]).length) := by
          rw [hrest, hlen]
          congr 1
        have hrle2 : (s.enq ++ [some s.enq.length]).length ≤ s.k := by
          rw [hlen]; omega
        have htst2 : (if s.i = 0 then some 0 else s.tStart) = none
            ↔ s.enq ++ [some s.enq.length] = [] := by
          constructor
          · intro hx
            exfalso
            by_cases hi : s.i = 0
            · rw [if_pos hi] at hx
              exact Option.noConfusion hx
            · rw [if_neg hi] at hx
              have he := h.htst.mp hx
              rw [he] at hri
              simp at hri
              exact hi hri.symm
          · intro hx
            exfalso
            simp at hx
        have hnotclosed : ¬ s.writerClosed = true := by
          intro hc
          have hx := h.hclosed.mpr hc
          rw [hpc] at hx
          exact MainPC.noConfusion hx
        have hwle2 : s.written.length ≤ (s.enq ++ [some s.enq.length]).length := by
          rw [hlen]
          have := h.hwle
          omega
        split
        · -- final iteration: the for loop ends, trial outcome Completed
          rename_i hiN
          refine ⟨h.hwr, hiwq2, hwle2, henq2, hcam2, hrle2, h.hstop, ?_, ?_, ?_, ?_,
                  h.hkpol, h.hpol, htst2⟩
          · show MainPC.doneCompleted = MainPC.doneTimedOut ↔ s.writerClosed = true
            constructor
            · intro hx; exact MainPC.noConfusion hx
            · intro hc; exact absurd hc hnotclosed
          · show s.writerClosed = true → s.imageWriteQueue ++ [some s.enq.length] = []
            intro hc; exact absurd hc hnotclosed
          · show MainPC.doneCompleted = MainPC.loopTop → _
            intro hx; exact MainPC.noConfusion hx
          · show MainPC.doneCompleted = MainPC.doneCompleted
              → (s.enq ++ [some s.enq.length]).length = cfg.framesToRecord
            intro _
            rw [hlen, hri]
            exact hiN
        · -- middle iteration: i is incremented
          rename_i hiN
          refine ⟨h.hwr, hiwq2, hwle2, henq2, hcam2, hrle2, h.hstop, ?_, ?_, ?_, ?_,
                  h.hkpol, h.hpol, htst2⟩
          · show s.mainPC = MainPC.doneTimedOut ↔ s.writerClosed = true
            rw [hpc]
            constructor
            · intro hx; exact MainPC.noConfusion hx
            · intro hc; exact absurd hc hnotclosed
          · show s.writerClosed = true → s.imageWriteQueue ++ [some s.enq.length] = []
            intro hc; exact absurd hc hnotclosed
          · show s.mainPC = MainPC.loopTop
              → (s.enq ++ [some s.enq.length]).length = s.i + 1
                ∧ (s.i + 1) + 1 ≤ cfg.framesToRecord
            intro _
            constructor
            · rw [hlen, hri]
            · omega
          · show s.mainPC = MainPC.doneCompleted
              → (s.enq ++ [some s.enq.length]).length = cfg.framesToRecord
            intro hx
            rw [hpc] at hx
            exact MainPC.noConfusion hx

lemma inv_saveImageStep (cfg : Config) (s : TrialState) (h : PipeInv cfg s) :
    PipeInv cfg (saveImageStep s) := by
  unfold saveImageStep
  split
  · exact h
  · split
    · exact h
    · -- a None sentinel at the head of the write queue: unreachable
      rename_i rest hq
      exfalso
      rw [h.hiwq] at hq
      cases hn : s.enq.length - s.written.length with
      | zero => rw [hn] at hq; simp at hq
      | succ m => rw [hn, List.range'_succ] at hq; simp at hq
    · -- a frame at the head: writeFrame appends it to written
      rename_i f rest hq
      have hq2 : (List.range' s.written.length (s.enq.length - s.written.length)).map some
          = some f :: rest := by rw [← h.hiwq]; exact hq
      cases hn : s.enq.length - s.written.length with
      | zero => rw [hn] at hq2; simp at hq2
      | succ m =>
        rw [hn, List.range'_succ] at hq2
        simp only [List.map_cons] at hq2
        have hfw : s.written.length = f := by
          have := hq2
          injection this with h1 _
          injection h1
        have hrest2 : (List.range' (s.written.length + 1) m).map some = rest := by
          injection hq2
        subst hfw
        have hlw : (s.written ++ [s.written.length]).length = s.written.length + 1 := by
          simp
        refine ⟨?_, ?_, ?_, h.henq, h.hcam, h.hrle, h.hstop, h.hclosed, ?_,
                h.hloop, h.hcomp, h.hkpol, h.hpol, h.htst⟩
        · show s.written ++ [s.written.length]
            = List.range (s.written ++ [s.written.length]).length
          rw [hlw, List.range_succ, ← h.hwr]
        · show rest = (List.range' (s.written ++ [s.written.length]).length
            (s.enq.length - (s.written ++ [s.written.length]).length)).map some
          rw [hlw, ← hrest2]
          congr 2
          omega
        · show (s.written ++ [s.written.length]).length ≤ s.enq.length
          rw [hlw]
          omega
        · show s.writerClosed = true → rest = []
          intro hc
          exfalso
          have hx := h.hclq hc
          rw [hq] at hx
          simp at hx

lemma inv_trialStep (cfg : Config) (s : TrialState) (t : Tid) (h : PipeInv cfg s) :
    PipeInv cfg (trialStep cfg s t) := by
  cases t
  · exact inv_camCaptureStep cfg s h
  · exact inv_mainLoopStep cfg s h
  · exact inv_saveImageStep cfg s h

lemma inv_initState (cfg : Config) : PipeInv cfg (initState cfg) := by
  refine ⟨?_, ?_, ?_, ?_, ?_, ?_, ?_, ?_, ?_, ?_, ?_, ?_, ?_, ?_⟩
  · show ([] : List Nat) = List.range ([] : List Nat).length
    simp
  · show ([] : List (Option Nat)) = (List.range' 0 (0 - 0)).map some
    simp
  · exact Nat.le_refl _
  · show ([] : List (Option Nat)) = (List.range 0).map some
    simp
  · show ([] : List Nat) = List.range' 0 (0 - 0)
    simp
  · exact Nat.le_refl _
  · rfl
  · show (if cfg.framesToRecord = 0 then MainPC.doneCompleted else MainPC.loopTop)
      = MainPC.doneTimedOut ↔ false = true
    constructor
    · intro hx
      by_cases hN : cfg.framesToRecord = 0
      · rw [if_pos hN] at hx; exact MainPC.noConfusion hx
      · rw [if_neg hN] at hx; exact MainPC.noConfusion hx
    · intro hx; exact Bool.noConfusion hx
  · intro hx; exact Bool.noConfusion hx
  · show (if cfg.framesToRecord = 0 then MainPC.doneCompleted else MainPC.loopTop)
      = MainPC.loopTop → ([] : List (Option Nat)).length = 0 ∧ 0 + 1 ≤ cfg.framesToRecord
    intro hx
    by_cases hN : cfg.framesToRecord = 0
    · rw [if_pos hN] at hx; exact MainPC.noConfusion hx
    · exact ⟨rfl, by omega⟩
  · show (if cfg.framesToRecord = 0 then MainPC.doneCompleted else MainPC.loopTop)
      = MainPC.doneCompleted → ([] : List (Option Nat)).length = cfg.framesToRecord
    intro hx
    by_cases hN : cfg.framesToRecord = 0
    · rw [hN]; rfl
    · rw [if_neg hN] at hx; exact MainPC.noConfusion hx
  · intro _; rfl
  · show ([] : List Policy) = (List.range ([] : List Policy).length).map polAt
    simp
  · show (none : Option Nat) = none ↔ ([] : List (Option Nat)) = []
    simp

lemma inv_foldl (cfg : Config) (l : List Tid) :
    ∀ s : TrialState, PipeInv cfg s → PipeInv cfg (l.foldl (trialStep cfg) s) := by
  induction l with
  | nil => intro s h; exact h
  | cons t ts ih => intro s h; exact ih _ (inv_trialStep cfg s t h)

lemma inv_trialRun (cfg : Config) (sched : List Tid) : PipeInv cfg (trialRun cfg sched) :=
  inv_foldl cfg sched (initState cfg) (inv_initState cfg)

lemma written_take_range (cfg : Config) (sched : List Tid) :
    (trialRun cfg sched).written
      = (List.range (trialRun cfg sched).k).take (trialRun cfg sched).written.length := by
  have h := inv_trialRun cfg sched
  rw [List.take_range]
  have hmin : min (trialRun cfg sched).written.length (trialRun cfg sched).k
      = (trialRun cfg sched).written.length :=
    Nat.min_eq_left (le_trans h.hwle h.hrle)
  rw [hmin]
  exact h.hwr

lemma enq_take_range (cfg : Config) (sched : List Tid) :
    (trialRun cfg sched).enq
      = ((List.range (trialRun cfg sched).k).take (trialRun cfg sched).enq.length).map some := by
  have h := inv_trialRun cfg sched
  rw [List.take_range]
  have hmin : min (trialRun cfg sched).enq.length (trialRun cfg sched).k
      = (trialRun cfg sched).enq.length := Nat.min_eq_left h.hrle
  rw [hmin]
  exact h.henq

lemma written_eq_enq_of_closed (cfg : Config) (sched : List Tid)
    (hc : (trialRun cfg sched).writerClosed = true) :
    (trialRun cfg sched).written.map some = (trialRun cfg sched).enq := by
  have h := inv_trialRun cfg sched
  have hq := h.hclq hc
  rw [h.hiwq] at hq
  have hn : (trialRun cfg sched).enq.length - (trialRun cfg sched).written.length = 0 := by
    by_contra hne
    rcases Nat.exists_eq_succ_of_ne_zero hne with ⟨m, hm⟩
    rw [hm, List.range'_succ] at hq
    simp at hq
  have hwr : (trialRun cfg sched).written.length = (trialRun cfg sched).enq.length := by
    have := h.hwle
    omega
  calc (trialRun cfg sched).written.map some
      = ((List.range (trialRun cfg sched).written.length).map some) := by rw [← h.hwr]
    _ = ((List.range (trialRun cfg sched).enq.length).map some) := by rw [hwr]
    _ = (trialRun cfg sched).enq := h.henq.symm

/-- C7: in every trial and under every interleaving, the first frame
retrieval of camCapture uses the infinite timeout policy and every later
retrieval uses the bounded CAM_TIMEOUT policy: the recorded policy of the
n-th completed retrieval attempt is polAt n, polAt 0 is infinite, polAt
of any successor is bounded, and each trial starts camCapture with frame
counter k = i = 0 (lines 197, 205). -/
theorem c7_first_frame_infinite_policy (cfg : Config) (sched : List Tid) :
    (initState cfg).k = 0
    ∧ (trialRun cfg sched).policies
        = (List.range (trialRun cfg sched).policies.length).map polAt
    ∧ polAt 0 = Policy.infinite
    ∧ ∀ n : Nat, polAt (n + 1) = Policy.bounded := by
  refine ⟨rfl, (inv_trialRun cfg sched).hpol, rfl, ?_⟩
  intro n
  rfl

/-- C8: end-to-end FIFO order.  Under every interleaving, the frames
passed to writer.writeFrame are exactly the first written-count frames in
capture order 0, 1, 2, ..., and the frames put on imageWriteQueue1 are
exactly the first enq-count frames in capture order: no reordering, no
duplication, no skip at any stage between capture and the writer. -/
theorem c8_fifo_order (cfg : Config) (sched : List Tid) :
    (trialRun cfg sched).written
      = (List.range (trialRun cfg sched).k).take (trialRun cfg sched).written.length
    ∧ (trialRun cfg sched).enq
      = ((List.range (trialRun cfg sched).k).take (trialRun cfg sched).enq.length).map some :=
  ⟨written_take_range cfg sched, enq_take_range cfg sched⟩

/-- C2 is false of the code: no termination path ever pushes the None
end-of-stream sentinel.  Under every driver oracle and every
interleaving, every item ever put on imageWriteQueue1 is a frame (never
None), and consequently the saveImage loop, whose only exit is dequeuing
None, never stops. -/
theorem c2_sentinel_never_enqueued (cfg : Config) (sched : List Tid) :
    (trialRun cfg sched).enq.all Option.isSome = true
    ∧ (trialRun cfg sched).saveStopped = false := by
  have h := inv_trialRun cfg sched
  refine ⟨?_, h.hstop⟩
  rw [h.henq, List.all_eq_true]
  intro x hx
  rw [List.mem_map] at hx
  obtain ⟨a, _, ha⟩ := hx
  rw [← ha]
  rfl

/-- C5: the close of the writer is a barrier.  Whenever writer1.close()
has been invoked (which the code does only after imageWriteQueue1.join()
returns), every frame that was ever enqueued on the write queue has
already been handed to writer.writeFrame. -/
theorem c5_close_barrier (cfg : Config) (sched : List Tid)
    (hc : (trialRun cfg sched).writerClosed = true) :
    (trialRun cfg sched).written.map some = (trialRun cfg sched).enq :=
  written_eq_enq_of_closed cfg sched hc

/-- C5 witness: a concrete trial in which one frame was enqueued and
written, a second frame was captured but dropped at the timeout, and the
writer was closed. -/
theorem c5_close_barrier_witness :
    (trialRun cfgTwoFrames schedBarrier).written.map some
      = (trialRun cfgTwoFrames schedBarrier).enq :=
  c5_close_barrier cfgTwoFrames schedBarrier (by decide)

/-- C1 counterexample: a trial in which the capture thread retrieves two
frames and then times out before the main loop runs at all.  The trial
terminates via the TimedOut path with the writer closed, two frames were
successfully retrieved (k = 2) and are still sitting in cam1Queue, yet
zero frames were written: the claim that the frames written equal the
frames retrieved, including frames still in the capture queue when the
timeout flag is observed, is false. -/
theorem c1_counterexample :
    (trialRun cfgTwoFrames schedDropAll).mainPC = MainPC.doneTimedOut
    ∧ (trialRun cfgTwoFrames schedDropAll).k = 2
    ∧ (trialRun cfgTwoFrames schedDropAll).written = []
    ∧ (trialRun cfgTwoFrames schedDropAll).camQueue = [0, 1]
    ∧ (trialRun cfgTwoFrames schedDropAll).writerClosed = true := by
  decide

/-- C1 amended: for every trial that terminates via the TimedOut path,
the frames written equal exactly the frames the main loop relayed to the
write queue before it observed the timeout flag (none of those is lost or
duplicated), and they form an in-order prefix of the frames the capture
thread retrieved; frames still in cam1Queue when the flag is observed are
dropped, so written may be fewer than retrieved. -/
theorem c1_amended_timeout_written (cfg : Config) (sched : List Tid)
    (h : (trialRun cfg sched).mainPC = MainPC.doneTimedOut) :
    (trialRun cfg sched).written.map some = (trialRun cfg sched).enq
    ∧ (trialRun cfg sched).written
        = (List.range (trialRun cfg sched).k).take (trialRun cfg sched).written.length := by
  have hinv := inv_trialRun cfg sched
  exact ⟨written_eq_enq_of_closed cfg sched (hinv.hclosed.mp h),
         written_take_range cfg sched⟩

/-- C1 amended witness: a concrete TimedOut trial with one relayed and
written frame and one dropped frame. -/
theorem c1_amended_timeout_written_witness :
    (trialRun cfgTwoFrames schedDropAll).written.map some
        = (trialRun cfgTwoFrames schedDropAll).enq
    ∧ (trialRun cfgTwoFrames schedDropAll).written
        = (List.range (trialRun cfgTwoFrames schedDropAll).k).take
            (trialRun cfgTwoFrames schedDropAll).written.length :=
  c1_amended_timeout_written cfgTwoFrames schedDropAll (by decide)

/-- C3 counterexample: with target frame count 1, after the main loop has
completed its single configured frame the capture thread is still running
and retrieves a second frame (k = 2 > 1), and the writer has not been
closed on this path: the claims that the capture loop stops retrieving at
the target and that the written count equals the retrieved count are
false for Completed trials. -/
theorem c3_counterexample :
    (trialRun cfgOneFrameTarget schedOverrun).mainPC = MainPC.doneCompleted
    ∧ cfgOneFrameTarget.framesToRecord = 1
    ∧ (trialRun cfgOneFrameTarget schedOverrun).k = 2
    ∧ (trialRun cfgOneFrameTarget schedOverrun).capStatus = CapStatus.running
    ∧ (trialRun cfgOneFrameTarget schedOverrun).writerClosed = false := by
  decide

/-- C3 amended: for every trial that reaches the Completed outcome,
exactly FRAMES_TO_RECORD frames are handed to the write queue, with
contiguous capture indices starting at 0, and the frames written are an
in-order prefix of those; but the capture thread does not stop at the
target, and the writer is not closed on this path. -/
theorem c3_amended_completed_target (cfg : Config) (sched : List Tid)
    (h : (trialRun cfg sched).mainPC = MainPC.doneCompleted) :
    (trialRun cfg sched).enq = (List.range cfg.framesToRecord).map some
    ∧ (trialRun cfg sched).written
        = (List.range cfg.framesToRecord).take (trialRun cfg sched).written.length := by
  have hinv := inv_trialRun cfg sched
  have hr : (trialRun cfg sched).enq.length = cfg.framesToRecord := hinv.hcomp h
  constructor
  · rw [← hr]
    exact hinv.henq
  · rw [List.take_range]
    have hmin : min (trialRun cfg sched).written.length cfg.framesToRecord
        = (trialRun cfg sched).written.length := by
      refine Nat.min_eq_left ?_
      rw [← hr]
      exact hinv.hwle
    rw [hmin]
    exact hinv.hwr

/-- C3 amended witness: the concrete Completed trial with target 1. -/
theorem c3_amended_completed_target_witness :
    (trialRun cfgOneFrameTarget schedOverrun).enq
        = (List.range cfgOneFrameTarget.framesToRecord).map some
    ∧ (trialRun cfgOneFrameTarget schedOverrun).written
        = (List.range cfgOneFrameTarget.framesToRecord).take
            (trialRun cfgOneFrameTarget schedOverrun).written.length :=
  c3_amended_completed_target cfgOneFrameTarget schedOverrun (by decide)

/-- C6 counterexample: the code does not distinguish non-timeout
retrieval errors from timeouts.  After one successful frame, a driver
that raises a device fault leaves the trial in exactly the same state as
a driver that times out - the fault is silently classified as a normal
trigger-timeout termination.  And a fault on the first-frame retrieval
(the infinite wait, which has no exception handler) kills the capture
thread without setting tEnd, so nothing is reported to the controller at
all. -/
theorem c6_counterexample :
    trialRun cfgFaultAfterOne [Tid.cap, Tid.cap]
      = trialRun cfgTimeoutAfterOne [Tid.cap, Tid.cap]
    ∧ (trialRun cfgFaultFirst [Tid.cap]).capStatus = CapStatus.crashed
    ∧ (trialRun cfgFaultFirst [Tid.cap]).tEnd = false := by
  decide

/-- C6 amended: a retrieval error other than timeout on any bounded-wait
retrieval (k not 0) is handled by the bare except exactly like a timeout,
producing an identical successor state (so the trial ends as a normal
trigger timeout, indistinguishable to the controller); an error on the
first-frame infinite-wait retrieval is uncaught: it crashes the capture
thread and leaves tEnd unchanged, reporting nothing. -/
theorem c6_amended_fault_handling :
    (∀ (cfgA cfgB : Config) (s : TrialState), s.k ≠ 0
      → cfgA.deliver s.k = Outcome.fault
      → cfgB.deliver s.k = Outcome.timeout
      → camCaptureStep cfgA s = camCaptureStep cfgB s)
    ∧ (∀ (cfg : Config) (s : TrialState), s.capStatus = CapStatus.running
      → s.k = 0
      → cfg.deliver 0 = Outcome.fault
      → (camCaptureStep cfg s).capStatus = CapStatus.crashed
        ∧ (camCaptureStep cfg s).tEnd = s.tEnd) := by
  constructor
  · intro cfgA cfgB s hk hfA hfB
    rcases Nat.exists_eq_succ_of_ne_zero hk with ⟨n, hn⟩
    unfold camCaptureStep
    rw [hfA, hfB, hn]
  · intro cfg s hcs hk hf
    unfold camCaptureStep
    rw [hcs, hk, hf]
    exact ⟨rfl, rfl⟩

/-- C6 amended witness: concrete instantiation of both parts, with one
frame already captured for the bounded-wait part and the initial state
for the first-frame part. -/
theorem c6_amended_fault_handling_witness :
    camCaptureStep cfgFaultAfterOne stateK1 = camCaptureStep cfgTimeoutAfterOne stateK1
    ∧ (camCaptureStep cfgFaultFirst (initState cfgFaultFirst)).capStatus
        = CapStatus.crashed :=
  ⟨c6_amended_fault_handling.1 cfgFaultAfterOne cfgTimeoutAfterOne stateK1
      (by decide) (by decide) (by decide),
   (c6_amended_fault_handling.2 cfgFaultFirst (initState cfgFaultFirst)
      rfl rfl rfl).1⟩

/-- C4 is false of the code: cancellation while still waiting for the
first trigger does not finalize cleanly.  In any run in which no frame
was ever relayed (for example a KeyboardInterrupt before the first
frame), tStart was never assigned, so line 254 of the shutdown path
raises NameError right after EndAcquisition: DeInit, cam_list.Clear and
ReleaseInstance are skipped, and no path of the shutdown code ever closes
the writer. -/
theorem c4_shutdown_namerror :
    (trialRun cfgAllSuccess []).tStart = none
    ∧ shutdownTrace (trialRun cfgAllSuccess []).tStart
        = ([SysAction.endAcquisition], some "NameError: name tStart is not defined")
    ∧ shutdownTrace (some 3)
        = ([SysAction.endAcquisition, SysAction.windowDestroy, SysAction.deInit,
            SysAction.camListClear, SysAction.releaseInstance], none) :=
  ⟨rfl, rfl, rfl⟩

/-- C9 is false of the code: the output filename contains the mouse
identifier, the date and the trial index but not the time of day (timeStr
is computed at line 75 yet never used at line 198), so two sessions
started at different times on the same date produce the identical
filename for the same trial index, and the FFmpegWriter then overwrites
the first file silently. -/
theorem c9_same_day_name_collision :
    sessionMovieName "mj" "2020_01_01" "09_30_59" 0
      = sessionMovieName "mj" "2020_01_01" "14_22_05" 0
    ∧ sessionMovieName "mj" "2020_01_01" "09_30_59" 0 = "mj_2020_01_01_bottom_0.mp4" :=
  ⟨rfl, rfl⟩

/-- C10: the save directories are created with single-level os.mkdir, so
if SAVE_FOLDER_ROOT does not exist, the very first mkdir raises
FileNotFoundError, which is unhandled: the program performs no action at
all - no directory created, no chdir, no camera initialization, hence no
trial and no file.  Moreover, in every run that does get past setup
(result ok), camera initialization is the last setup action, immediately
preceded by the chdir into the date folder: directory creation and the
working-directory change happen unconditionally before camera
configuration. -/
theorem c10_missing_root_aborts :
    (∀ (fs : List DirPath) (m d : String), parentsPresent fs
      → SAVE_FOLDER_ROOT ∉ fs
      → (setupAndInit fs m d).1 = []
        ∧ (setupAndInit fs m d).2 = Except.error "FileNotFoundError")
    ∧ (∀ (fs : List DirPath) (m d : String) (fs2 : List DirPath),
        (setupAndInit fs m d).2 = Except.ok fs2
      → (setupAndInit fs m d).1.getLast? = some ProgAction.initCamera
        ∧ (setupAndInit fs m d).1.dropLast.getLast?
            = some (ProgAction.chdirA (SAVE_FOLDER_ROOT ++ [m] ++ [d]))) := by
  constructor
  · intro fs m d hpp hroot
    have hp1 : SAVE_FOLDER_ROOT ++ [m] ∉ fs := by
      intro hmem
      have hne : SAVE_FOLDER_ROOT ++ [m] ≠ [] := by simp
      have hpar := hpp _ hmem hne
      rw [List.dropLast_concat] at hpar
      exact hroot hpar
    have he1 : ensureDir fs (SAVE_FOLDER_ROOT ++ [m])
        = ([], Except.error "FileNotFoundError") := by
      unfold ensureDir mkdirS
      rw [if_neg hp1, if_neg hp1, List.dropLast_concat, if_neg hroot]
    unfold setupAndInit
    rw [he1]
    exact ⟨rfl, rfl⟩
  · intro fs m d fs2 hok
    rcases h1 : ensureDir fs (SAVE_FOLDER_ROOT ++ [m]) with ⟨a1, r1⟩
    cases r1 with
    | error e =>
      have hval : setupAndInit fs m d = (a1, Except.error e) := by
        unfold setupAndInit
        rw [h1]
      rw [hval] at hok
      simp at hok
    | ok fs1 =>
      rcases h2 : ensureDir fs1 (SAVE_FOLDER_ROOT ++ [m] ++ [d]) with ⟨a2, r2⟩
      cases r2 with
      | error e =>
        have hval : setupAndInit fs m d = (a1 ++ a2, Except.error e) := by
          unfold setupAndInit
          rw [h1]
          dsimp only
          rw [h2]
        rw [hval] at hok
        simp at hok
      | ok fsx =>
        cases h3 : chdirS fsx (SAVE_FOLDER_ROOT ++ [m] ++ [d]) with
        | error e =>
          have hval : setupAndInit fs m d = (a1 ++ a2, Except.error e) := by
            unfold setupAndInit
            rw [h1]
            dsimp only
            rw [h2]
            dsimp only
            rw [h3]
          rw [hval] at hok
          simp at hok
        | ok u =>
          have hval : setupAndInit fs m d
              = (a1 ++ a2
                  ++ [ProgAction.chdirA (SAVE_FOLDER_ROOT ++ [m] ++ [d]),
                      ProgAction.initCamera], Except.ok fsx) := by
            unfold setupAndInit
            rw [h1]
            dsimp only
            rw [h2]
            dsimp only
            rw [h3]
          rw [hval]
          have hsplit : a1 ++ a2
              ++ [ProgAction.chdirA (SAVE_FOLDER_ROOT ++ [m] ++ [d]),
                  ProgAction.initCamera]
              = (a1 ++ a2 ++ [ProgAction.chdirA (SAVE_FOLDER_ROOT ++ [m] ++ [d])])
                ++ [ProgAction.initCamera] := by
            simp
          refine ⟨?_, ?_⟩
          · show (a1 ++ a2
              ++ [ProgAction.chdirA (SAVE_FOLDER_ROOT ++ [m] ++ [d]),
                  ProgAction.initCamera]).getLast? = some ProgAction.initCamera
            rw [hsplit, List.getLast?_concat]
          · show (a1 ++ a2
              ++ [ProgAction.chdirA (SAVE_FOLDER_ROOT ++ [m] ++ [d]),
                  ProgAction.initCamera]).dropLast.getLast?
              = some (ProgAction.chdirA (SAVE_FOLDER_ROOT ++ [m] ++ [d]))
            rw [hsplit, List.dropLast_concat, List.getLast?_concat]

/-- C10 witness: a filesystem without SAVE_FOLDER_ROOT makes setup fail
with no action performed, and a filesystem containing exactly
SAVE_FOLDER_ROOT yields a successful setup whose trace ends in chdir then
camera initialization. -/
theorem c10_missing_root_aborts_witness :
    ((setupAndInit [] "mj" "2020_01_01").1 = []
      ∧ (setupAndInit [] "mj" "2020_01_01").2 = Except.error "FileNotFoundError")
    ∧ ((setupAndInit [SAVE_FOLDER_ROOT] "mj" "2020_01_01").1.getLast?
          = some ProgAction.initCamera
      ∧ (setupAndInit [SAVE_FOLDER_ROOT] "mj" "2020_01_01").1.dropLast.getLast?
          = some (ProgAction.chdirA (SAVE_FOLDER_ROOT ++ ["mj"] ++ ["2020_01_01"]))) :=
  ⟨c10_missing_root_aborts.1 [] "mj" "2020_01_01"
      (fun p hp _ => absurd hp (List.not_mem_nil p))
      (List.not_mem_nil _),
   c10_missing_root_aborts.2 [SAVE_FOLDER_ROOT] "mj" "2020_01_01"
      [SAVE_FOLDER_ROOT ++ ["mj"] ++ ["2020_01_01"], SAVE_FOLDER_ROOT ++ ["mj"],
       SAVE_FOLDER_ROOT]
      (by rfl)⟩
